import Mathlib

/-
Verification development for the world-monitor native host shell
(src/src-tauri/src/main.rs): the secret-store facade over the platform
credential vault, and the local-API sidecar process supervisor.

The Rust source is shallowly embedded: the platform vault (the `keyring`
crate) is modelled as an explicit state machine supplied as a parameter,
and every vault access performed by an operation is recorded in a call
log so that "performs no vault access" becomes a provable statement.
The OS facilities used by the supervisor (file existence, process spawn,
process kill) are likewise parameters, and spawn / kill requests are
logged.
-/

namespace WorldMonitor

/-- The fixed local port passed to the sidecar (`LOCAL_API_PORT` in main.rs). -/
def LOCAL_API_PORT : String := "46123"

/-- The keyring service namespace (`KEYRING_SERVICE` in main.rs). -/
def KEYRING_SERVICE : String := "world-monitor"

/-- The fixed allow-list of 13 supported secret keys
(`SUPPORTED_SECRET_KEYS` in main.rs), in declared order. -/
def SUPPORTED_SECRET_KEYS : List String :=
  ["GROQ_API_KEY",
   "OPENROUTER_API_KEY",
   "FRED_API_KEY",
   "EIA_API_KEY",
   "CLOUDFLARE_API_TOKEN",
   "ACLED_ACCESS_TOKEN",
   "WINGBITS_API_KEY",
   "WS_RELAY_URL",
   "VITE_OPENSKY_RELAY_URL",
   "OPENSKY_CLIENT_ID",
   "OPENSKY_CLIENT_SECRET",
   "AISSTREAM_API_KEY",
   "VITE_WS_RELAY_URL"]

/-- Errors of the `keyring` crate that the source distinguishes:
`keyring::Error::NoEntry` versus every other error (carried as its
display message). -/
inductive KeyringError
  | noEntry
  | other (msg : String)
deriving DecidableEq

/-- The display rendering of a keyring error, used when the source
formats the error into the command's `Err(String)`. -/
def KeyringError.display : KeyringError → String
  | KeyringError.noEntry => "No matching entry found in secure storage"
  | KeyringError.other m => m

/-- A `keyring::Entry` descriptor: the (service, key) pair it addresses. -/
structure Entry where
  service : String
  key : String
deriving DecidableEq

/-- One access to the platform vault, recorded in the call log of an
operation. `Entry::new` counts as touching the keyring. -/
inductive VaultCall
  | entryNew (service key : String)
  | getPassword (service key : String)
  | setPassword (service key value : String)
  | deleteCredential (service key : String)
deriving DecidableEq

/-- The platform vault as a state machine over an arbitrary state type:
each primitive returns the keyring outcome and the next vault state.
The source performs no in-process caching, so this is the only state. -/
structure VaultModel (σ : Type) where
  entry_new : σ → String → String → Except KeyringError Unit × σ
  get_password : σ → String → String → Except KeyringError String × σ
  set_password : σ → String → String → String → Except KeyringError Unit × σ
  delete_credential : σ → String → String → Except KeyringError Unit × σ

/-- `list_supported_secret_keys` from main.rs: returns the allow-list in
declared order. -/
def list_supported_secret_keys : List String :=
  SUPPORTED_SECRET_KEYS.map (fun key => key)

/-- `secret_entry` from main.rs: rejects keys outside the allow-list
before any vault access; otherwise builds the `Entry` for the fixed
service namespace (which may itself fail). Returns the result, the
vault state after the operation, and the log of vault accesses. -/
def secret_entry {σ : Type} (vm : VaultModel σ) (s : σ) (key : String) :
    Except String Entry × σ × List VaultCall :=
  if !(SUPPORTED_SECRET_KEYS.contains key) then
    (Except.error ("Unsupported secret key: " ++ key), s, [])
  else
    match vm.entry_new s KEYRING_SERVICE key with
    | (Except.ok _, s2) =>
        (Except.ok ⟨KEYRING_SERVICE, key⟩, s2, [VaultCall.entryNew KEYRING_SERVICE key])
    | (Except.error e, s2) =>
        (Except.error ("Keyring init failed: " ++ e.display), s2,
         [VaultCall.entryNew KEYRING_SERVICE key])

/-- `get_secret` from main.rs: validates the key, then reads the
password; `NoEntry` is mapped to `Ok(None)`, any other keyring failure
to the vault-access error string. -/
def get_secret {σ : Type} (vm : VaultModel σ) (s : σ) (key : String) :
    Except String (Option String) × σ × List VaultCall :=
  match secret_entry vm s key with
  | (Except.error e, s2, log) => (Except.error e, s2, log)
  | (Except.ok entry, s2, log) =>
    match vm.get_password s2 entry.service entry.key with
    | (Except.ok value, s3) =>
        (Except.ok (some value), s3, log ++ [VaultCall.getPassword entry.service entry.key])
    | (Except.error KeyringError.noEntry, s3) =>
        (Except.ok none, s3, log ++ [VaultCall.getPassword entry.service entry.key])
    | (Except.error err, s3) =>
        (Except.error ("Failed to read keyring secret: " ++ err.display), s3,
         log ++ [VaultCall.getPassword entry.service entry.key])

/-- `set_secret` from main.rs: validates the key, then writes the value
unconditionally; any keyring failure is mapped to the vault-access
error string. -/
def set_secret {σ : Type} (vm : VaultModel σ) (s : σ) (key value : String) :
    Except String Unit × σ × List VaultCall :=
  match secret_entry vm s key with
  | (Except.error e, s2, log) => (Except.error e, s2, log)
  | (Except.ok entry, s2, log) =>
    match vm.set_password s2 entry.service entry.key value with
    | (Except.ok _, s3) =>
        (Except.ok (), s3, log ++ [VaultCall.setPassword entry.service entry.key value])
    | (Except.error e, s3) =>
        (Except.error ("Failed to write keyring secret: " ++ e.display), s3,
         log ++ [VaultCall.setPassword entry.service entry.key value])

/-- `delete_secret` from main.rs: validates the key, then deletes the
credential; `NoEntry` is mapped to success (idempotent delete), any
other keyring failure to the vault-access error string. -/
def delete_secret {σ : Type} (vm : VaultModel σ) (s : σ) (key : String) :
    Except String Unit × σ × List VaultCall :=
  match secret_entry vm s key with
  | (Except.error e, s2, log) => (Except.error e, s2, log)
  | (Except.ok entry, s2, log) =>
    match vm.delete_credential s2 entry.service entry.key with
    | (Except.ok _, s3) =>
        (Except.ok (), s3, log ++ [VaultCall.deleteCredential entry.service entry.key])
    | (Except.error KeyringError.noEntry, s3) =>
        (Except.ok (), s3, log ++ [VaultCall.deleteCredential entry.service entry.key])
    | (Except.error err, s3) =>
        (Except.error ("Failed to delete keyring secret: " ++ err.display), s3,
         log ++ [VaultCall.deleteCredential entry.service entry.key])

/-- In-memory healthy-vault state: an association list from
(service, key) to the stored value. -/
def MemStore : Type := List ((String × String) × String)

/-- Lookup in the in-memory vault state. -/
def memGet (store : MemStore) (service key : String) : Option String :=
  match store with
  | [] => none
  | (sk, v) :: rest =>
      if sk = (service, key) then some v else memGet rest service key

/-- Remove every record for (service, key) from the in-memory state. -/
def memRemove (store : MemStore) (service key : String) : MemStore :=
  match store with
  | [] => []
  | (sk, v) :: rest =>
      if sk = (service, key) then memRemove rest service key
      else (sk, v) :: memRemove rest service key

/-- Overwrite the record for (service, key) in the in-memory state. -/
def memSet (store : MemStore) (service key value : String) : MemStore :=
  ((service, key), value) :: memRemove store service key

/-- A healthy platform vault over the in-memory state: entry creation
always succeeds, reads of absent records report `NoEntry`, writes
overwrite, deletes of absent records report `NoEntry` (as the real
keyring does). -/
def memVault : VaultModel MemStore where
  entry_new := fun s _ _ => (Except.ok (), s)
  get_password := fun s service key =>
    match memGet s service key with
    | some v => (Except.ok v, s)
    | none => (Except.error KeyringError.noEntry, s)
  set_password := fun s service key value =>
    (Except.ok (), memSet s service key value)
  delete_credential := fun s service key =>
    match memGet s service key with
    | some _ => (Except.ok (), memRemove s service key)
    | none => (Except.error KeyringError.noEntry, s)

/-- A vault whose reads fail with an arbitrary non-`NoEntry` error:
models an unreachable or corrupt credential store. -/
def failingGetVault (msg : String) : VaultModel Unit where
  entry_new := fun s _ _ => (Except.ok (), s)
  get_password := fun s _ _ => (Except.error (KeyringError.other msg), s)
  set_password := fun s _ _ _ => (Except.ok (), s)
  delete_credential := fun s _ _ => (Except.ok (), s)

/-- A filesystem path, modelled as its list of components.
`PathBuf::from(s)` on an opaque directory string is a one-component
path; `join` appends a component; `parent` drops the last component of
a non-empty path (Rust's `Path::parent` returns `None` on an empty
path). -/
structure FsPath where
  components : List String
deriving DecidableEq

/-- `PathBuf::join`. -/
def FsPath.join (p : FsPath) (seg : String) : FsPath :=
  ⟨p.components ++ [seg]⟩

/-- `Path::parent`, as used on the manifest directory. -/
def FsPath.parent (p : FsPath) : Option FsPath :=
  match p.components with
  | [] => none
  | _ :: _ => some ⟨p.components.dropLast⟩

/-- `Path::display`: the textual rendering placed in error messages and
environment variables. -/
def FsPath.render (p : FsPath) : String :=
  String.intercalate "/" p.components

/-- The compile-time build configuration consumed by `local_api_paths`:
`cfg!(debug_assertions)` and `env!("CARGO_MANIFEST_DIR")`. -/
structure BuildConfig where
  debug_assertions : Bool
  cargo_manifest_dir : FsPath

/-- The Tauri `AppHandle` surface the supervisor uses: the platform
resource-directory query, which can fail. -/
structure AppHandle where
  resource_dir : Except Unit FsPath

/-- `local_api_paths` from main.rs: resolves (sidecar script path,
resource root) from the build mode and the platform resource directory,
with "." as fallback when the resource directory is undetermined. -/
def local_api_paths (cfg : BuildConfig) (app : AppHandle) : FsPath × FsPath :=
  let resource_dir :=
    match app.resource_dir with
    | Except.ok p => p
    | Except.error _ => FsPath.mk ["."]
  let sidecar_script :=
    if cfg.debug_assertions then
      cfg.cargo_manifest_dir.join "sidecar/local-api-server.mjs"
    else
      resource_dir.join "sidecar/local-api-server.mjs"
  let api_dir_root :=
    if cfg.debug_assertions then
      match cfg.cargo_manifest_dir.parent with
      | some p => p
      | none => FsPath.mk ["."]
    else
      resource_dir
  (sidecar_script, api_dir_root)

/-- The spawn request built by `start_local_api`: program, script
argument, environment, and stream dispositions. -/
structure SpawnCmd where
  program : String
  args : List String
  envs : List (String × String)
  stdout_null : Bool
  stderr_inherit : Bool
deriving DecidableEq

/-- The `Command` that `start_local_api` constructs for the sidecar. -/
def sidecar_command (script resource_root : FsPath) : SpawnCmd where
  program := "node"
  args := [script.render]
  envs := [("LOCAL_API_PORT", LOCAL_API_PORT),
           ("LOCAL_API_RESOURCE_DIR", resource_root.render),
           ("LOCAL_API_MODE", "tauri-sidecar")]
  stdout_null := true
  stderr_inherit := true

/-- The OS facilities the supervisor relies on: file-existence checks,
process spawning (returning a child id or the OS error message), and
the outcome of a kill request (discarded by the source). -/
structure OsModel where
  path_exists : FsPath → Bool
  spawn : SpawnCmd → Except String Nat
  kill_ok : Nat → Bool

/-- `LocalApiState` from main.rs: the mutex-guarded optional child
handle. `poisoned` models a poisoned mutex (a thread panicked while
holding the lock), which makes `lock()` return `Err`. -/
structure LocalApiState where
  poisoned : Bool
  child : Option Nat
deriving DecidableEq

/-- `start_local_api` from main.rs. Returns the command result, the
supervisor state after the call, and the log of spawn requests issued
to the OS. -/
def start_local_api (cfg : BuildConfig) (os : OsModel) (app : AppHandle)
    (st : LocalApiState) :
    Except String Unit × LocalApiState × List SpawnCmd :=
  if st.poisoned then
    (Except.error "Failed to lock local API state", st, [])
  else
    match st.child with
    | some _ => (Except.ok (), st, [])
    | none =>
      let paths := local_api_paths cfg app
      let script := paths.1
      let resource_root := paths.2
      if !(os.path_exists script) then
        (Except.error ("Local API sidecar script missing at " ++ script.render), st, [])
      else
        let cmd := sidecar_command script resource_root
        match os.spawn cmd with
        | Except.error e =>
            (Except.error ("Failed to launch local API: " ++ e), st, [cmd])
        | Except.ok child =>
            (Except.ok (), { st with child := some child }, [cmd])

/-- `stop_local_api` from main.rs. Returns the supervisor state after
the call and the log of kill requests issued; the kill outcome is
consulted and discarded (`let _ = child.kill()`), and the function has
no error channel. -/
def stop_local_api (os : OsModel) (st : LocalApiState) :
    LocalApiState × List Nat :=
  if st.poisoned then
    (st, [])
  else
    match st.child with
    | none => (st, [])
    | some child =>
      let _ := os.kill_ok child
      ({ st with child := none }, [child])

/-- A concrete healthy OS for witnesses: every path exists, spawning
yields child id 7, kills succeed. -/
def osHealthy : OsModel where
  path_exists := fun _ => true
  spawn := fun _ => Except.ok 7
  kill_ok := fun _ => true

/-- A concrete build configuration for witnesses: a debug build with a
two-component manifest directory. -/
def cfgDev : BuildConfig where
  debug_assertions := true
  cargo_manifest_dir := FsPath.mk ["repo", "src-tauri"]

/-- A concrete app handle for witnesses: the resource directory
resolves to "res". -/
def appOk : AppHandle where
  resource_dir := Except.ok (FsPath.mk ["res"])

/-- A concrete packaged-build configuration for witnesses. -/
def cfgPack : BuildConfig where
  debug_assertions := false
  cargo_manifest_dir := FsPath.mk ["repo", "src-tauri"]

/-- A concrete app handle whose resource directory cannot be determined. -/
def appNoRes : AppHandle where
  resource_dir := Except.error ()

/-- A concrete OS on which the resolved script path does not exist. -/
def osNoScript : OsModel where
  path_exists := fun _ => false
  spawn := fun _ => Except.error "spawn should not be reached"
  kill_ok := fun _ => true

/-- A concrete OS on which every spawn fails with a fixed OS error. -/
def osSpawnFails : OsModel where
  path_exists := fun _ => true
  spawn := fun _ => Except.error "no such file or directory"
  kill_ok := fun _ => true

/-- A concrete OS on which kill requests report failure. -/
def osKillFails : OsModel where
  path_exists := fun _ => true
  spawn := fun _ => Except.ok 7
  kill_ok := fun _ => false

/-- Reading back the record just written by `memSet`. -/
theorem memGet_memSet_same (store : MemStore) (service key value : String) :
    memGet (memSet store service key value) service key = some value := by
  simp [memSet, memGet]

/-- After `memRemove`, no record for the removed (service, key) remains. -/
theorem memGet_memRemove_same (store : MemStore) (service key : String) :
    memGet (memRemove store service key) service key = none := by
  induction store with
  | nil => simp [memRemove, memGet]
  | cons hd tl ih =>
    obtain ⟨sk, v⟩ := hd
    by_cases h : sk = (service, key)
    · simpa [memRemove, h] using ih
    · simpa [memRemove, memGet, h] using ih

/-- Removing a record that is not present leaves the store unchanged. -/
theorem memRemove_of_memGet_none (store : MemStore) (service key : String)
    (h : memGet store service key = none) :
    memRemove store service key = store := by
  induction store with
  | nil => simp [memRemove]
  | cons hd tl ih =>
    obtain ⟨sk, v⟩ := hd
    by_cases hsk : sk = (service, key)
    · rw [memGet, if_pos hsk] at h
      exact absurd h (by simp)
    · rw [memGet, if_neg hsk] at h
      rw [memRemove, if_neg hsk, ih h]

/-- On an allow-listed key, `secret_entry` over the healthy in-memory
vault succeeds without touching the store, logging the entry creation. -/
theorem secret_entry_memVault_ok (store : MemStore) (key : String)
    (hk : SUPPORTED_SECRET_KEYS.contains key = true) :
    secret_entry memVault store key =
      (Except.ok ⟨KEYRING_SERVICE, key⟩, store,
       [VaultCall.entryNew KEYRING_SERVICE key]) := by
  have hkm : key ∈ SUPPORTED_SECRET_KEYS := by simpa using hk
  simp [secret_entry, hkm, memVault]

/-- On an allow-listed key, `delete_secret` over the healthy in-memory
vault always succeeds and leaves the store with the key removed. -/
theorem delete_secret_memVault_eq (store : MemStore) (key : String)
    (hk : SUPPORTED_SECRET_KEYS.contains key = true) :
    delete_secret memVault store key =
      (Except.ok (), memRemove store KEYRING_SERVICE key,
       [VaultCall.entryNew KEYRING_SERVICE key,
        VaultCall.deleteCredential KEYRING_SERVICE key]) := by
  rw [delete_secret, secret_entry_memVault_ok store key hk]
  by_cases h : memGet store KEYRING_SERVICE key = none
  · simp [memVault, h, memRemove_of_memGet_none store _ _ h]
  · obtain ⟨v, hv⟩ := Option.ne_none_iff_exists'.mp h
    simp [memVault, hv]

/-- C2: for every key outside the 13-entry allow-list, `get_secret`,
`set_secret` and `delete_secret` each return the unsupported-key error
naming the offending key, leave the vault state untouched, and record
zero vault accesses — over an arbitrary vault model. -/
theorem unsupported_key_rejected_without_vault_access
    {σ : Type} (vm : VaultModel σ) (s : σ) (key : String)
    (h : SUPPORTED_SECRET_KEYS.contains key = false) :
    get_secret vm s key =
      (Except.error ("Unsupported secret key: " ++ key), s, []) ∧
    (∀ value, set_secret vm s key value =
      (Except.error ("Unsupported secret key: " ++ key), s, [])) ∧
    delete_secret vm s key =
      (Except.error ("Unsupported secret key: " ++ key), s, []) := by
  have hnm : key ∉ SUPPORTED_SECRET_KEYS := by simpa using h
  have hse : secret_entry vm s key =
      (Except.error ("Unsupported secret key: " ++ key), s, []) := by
    simp [secret_entry, hnm]
  refine ⟨?_, fun value => ?_, ?_⟩ <;>
    simp [get_secret, set_secret, delete_secret, hse]

/-- C2 witness: the key "FOO" is not allow-listed and `get_secret`
rejects it with no vault access on the healthy in-memory vault. -/
theorem unsupported_key_rejected_without_vault_access_witness :
    SUPPORTED_SECRET_KEYS.contains "FOO" = false ∧
    get_secret memVault [] "FOO" =
      (Except.error ("Unsupported secret key: " ++ "FOO"), [], []) :=
  ⟨by decide,
   (unsupported_key_rejected_without_vault_access memVault [] "FOO" (by decide)).1⟩

/-- C5: for every allow-listed key, `get_secret` on a vault holding no
record for it (never set, or just deleted) returns success with `none`,
while a vault read failure other than no-entry returns the
vault-access error — the two outcomes are distinguished. -/
theorem get_secret_none_vs_vault_failure (key : String)
    (hk : SUPPORTED_SECRET_KEYS.contains key = true) :
    (∀ store : MemStore, memGet store KEYRING_SERVICE key = none →
        get_secret memVault store key =
          (Except.ok none, store,
           [VaultCall.entryNew KEYRING_SERVICE key,
            VaultCall.getPassword KEYRING_SERVICE key])) ∧
    (∀ store : MemStore,
        (get_secret memVault ((delete_secret memVault store key).2.1) key).1 =
          Except.ok none) ∧
    (∀ msg : String,
        get_secret (failingGetVault msg) () key =
          (Except.error ("Failed to read keyring secret: " ++ msg), (),
           [VaultCall.entryNew KEYRING_SERVICE key,
            VaultCall.getPassword KEYRING_SERVICE key])) := by
  have habs : ∀ store : MemStore, memGet store KEYRING_SERVICE key = none →
      get_secret memVault store key =
        (Except.ok none, store,
         [VaultCall.entryNew KEYRING_SERVICE key,
          VaultCall.getPassword KEYRING_SERVICE key]) := by
    intro store hnone
    rw [get_secret, secret_entry_memVault_ok store key hk]
    simp [memVault, hnone]
  refine ⟨habs, fun store => ?_, fun msg => ?_⟩
  · rw [delete_secret_memVault_eq store key hk,
      habs _ (memGet_memRemove_same store KEYRING_SERVICE key)]
  · rw [get_secret]
    have hkm : key ∈ SUPPORTED_SECRET_KEYS := by simpa using hk
    have hse : secret_entry (failingGetVault msg) () key =
        (Except.ok ⟨KEYRING_SERVICE, key⟩, (),
         [VaultCall.entryNew KEYRING_SERVICE key]) := by
      simp [secret_entry, hkm, failingGetVault]
    rw [hse]
    simp [failingGetVault, KeyringError.display]

/-- C5 witness: on the allow-listed key "GROQ_API_KEY", a read from an
empty healthy vault yields `Ok(None)`, and a read from a failing vault
yields the vault-access error. -/
theorem get_secret_none_vs_vault_failure_witness :
    SUPPORTED_SECRET_KEYS.contains "GROQ_API_KEY" = true ∧
    get_secret memVault [] "GROQ_API_KEY" =
      (Except.ok none, [],
       [VaultCall.entryNew KEYRING_SERVICE "GROQ_API_KEY",
        VaultCall.getPassword KEYRING_SERVICE "GROQ_API_KEY"]) ∧
    get_secret (failingGetVault "vault unreachable") () "GROQ_API_KEY" =
      (Except.error ("Failed to read keyring secret: " ++ "vault unreachable"), (),
       [VaultCall.entryNew KEYRING_SERVICE "GROQ_API_KEY",
        VaultCall.getPassword KEYRING_SERVICE "GROQ_API_KEY"]) :=
  ⟨by decide,
   (get_secret_none_vs_vault_failure "GROQ_API_KEY" (by decide)).1 [] rfl,
   (get_secret_none_vs_vault_failure "GROQ_API_KEY" (by decide)).2.2 "vault unreachable"⟩

/-- C6: for every allow-listed key, writes overwrite unconditionally —
`set key a` then `set key b` then `get key` yields `Some b` on the
healthy vault, from any starting store. -/
theorem set_secret_last_write_wins (key a b : String)
    (hk : SUPPORTED_SECRET_KEYS.contains key = true) :
    ∀ store : MemStore,
      (get_secret memVault
        ((set_secret memVault ((set_secret memVault store key a).2.1) key b).2.1)
        key).1 = Except.ok (some b) := by
  intro store
  have hset : ∀ (st : MemStore) (v : String),
      (set_secret memVault st key v).2.1 = memSet st KEYRING_SERVICE key v := by
    intro st v
    rw [set_secret, secret_entry_memVault_ok st key hk]
    simp [memVault]
  rw [hset, hset, get_secret,
    secret_entry_memVault_ok _ key hk]
  simp [memVault, memGet_memSet_same]

/-- C6 witness: on "GROQ_API_KEY", set "a" then "b" then get returns
`Some "b"` starting from the empty store. -/
theorem set_secret_last_write_wins_witness :
    SUPPORTED_SECRET_KEYS.contains "GROQ_API_KEY" = true ∧
    (get_secret memVault
      ((set_secret memVault
        ((set_secret memVault [] "GROQ_API_KEY" "a").2.1) "GROQ_API_KEY" "b").2.1)
      "GROQ_API_KEY").1 = Except.ok (some "b") :=
  ⟨by decide, set_secret_last_write_wins "GROQ_API_KEY" "a" "b" (by decide) []⟩

/-- C7: for every allow-listed key, deleting a key with no stored
record succeeds (the no-entry outcome is mapped to success), and a
second delete of the same key also succeeds — idempotent delete. -/
theorem delete_secret_idempotent (key : String)
    (hk : SUPPORTED_SECRET_KEYS.contains key = true) :
    (∀ store : MemStore, memGet store KEYRING_SERVICE key = none →
        delete_secret memVault store key =
          (Except.ok (), store,
           [VaultCall.entryNew KEYRING_SERVICE key,
            VaultCall.deleteCredential KEYRING_SERVICE key])) ∧
    (∀ store : MemStore,
        (delete_secret memVault ((delete_secret memVault store key).2.1) key).1 =
          Except.ok ()) := by
  have habs : ∀ store : MemStore, memGet store KEYRING_SERVICE key = none →
      delete_secret memVault store key =
        (Except.ok (), store,
         [VaultCall.entryNew KEYRING_SERVICE key,
          VaultCall.deleteCredential KEYRING_SERVICE key]) := by
    intro store hnone
    rw [delete_secret_memVault_eq store key hk,
      memRemove_of_memGet_none store _ _ hnone]
  refine ⟨habs, fun store => ?_⟩
  rw [delete_secret_memVault_eq store key hk,
    habs _ (memGet_memRemove_same store KEYRING_SERVICE key)]

/-- C7 witness: deleting "GROQ_API_KEY" from the empty store succeeds,
and deleting it twice in a row also succeeds. -/
theorem delete_secret_idempotent_witness :
    SUPPORTED_SECRET_KEYS.contains "GROQ_API_KEY" = true ∧
    delete_secret memVault [] "GROQ_API_KEY" =
      (Except.ok (), [],
       [VaultCall.entryNew KEYRING_SERVICE "GROQ_API_KEY",
        VaultCall.deleteCredential KEYRING_SERVICE "GROQ_API_KEY"]) ∧
    (delete_secret memVault
      ((delete_secret memVault [(("world-monitor", "GROQ_API_KEY"), "x")]
        "GROQ_API_KEY").2.1) "GROQ_API_KEY").1 = Except.ok () :=
  ⟨by decide,
   (delete_secret_idempotent "GROQ_API_KEY" (by decide)).1 [] rfl,
   (delete_secret_idempotent "GROQ_API_KEY" (by decide)).2
     [(("world-monitor", "GROQ_API_KEY"), "x")]⟩

/-- C1: with a healthy (unpoisoned) lock, a start request while a
child is already tracked is a no-op that returns success, changes no
state and issues no spawn (for every build configuration and OS); and
when a start from Stopped succeeds, it issued exactly one spawn and an
immediately following start request spawns nothing — two sequential
calls yield exactly one spawned process. -/
theorem ensureRunning_at_most_one_spawn
    (cfg : BuildConfig) (os : OsModel) (app : AppHandle) (st : LocalApiState)
    (hp : st.poisoned = false) :
    (∀ c, st.child = some c →
        start_local_api cfg os app st = (Except.ok (), st, [])) ∧
    (st.child = none →
      ∀ st1 l1, start_local_api cfg os app st = (Except.ok (), st1, l1) →
        l1.length = 1 ∧
        start_local_api cfg os app st1 = (Except.ok (), st1, [])) := by
  constructor
  · intro c hc
    simp [start_local_api, hp, hc]
  · intro hc st1 l1 h1
    rw [start_local_api] at h1
    simp only [hp, hc] at h1
    by_cases hex : os.path_exists (local_api_paths cfg app).1 = true
    · simp only [hex] at h1
      rcases hs : os.spawn (sidecar_command (local_api_paths cfg app).1
          (local_api_paths cfg app).2) with e | child
      · rw [hs] at h1
        simp at h1
      · rw [hs] at h1
        have hst1 := congrArg (fun t => t.2.1) h1
        have hl1 := congrArg (fun t => t.2.2) h1
        simp only at hst1 hl1
        subst hst1
        subst hl1
        refine ⟨rfl, ?_⟩
        simp [start_local_api, hp]
    · simp only [Bool.not_eq_true] at hex
      simp [hex] at h1

/-- C1 witness: a start request while child 7 is tracked is a no-op
returning success with no spawn. -/
theorem ensureRunning_at_most_one_spawn_witness :
    start_local_api cfgDev osHealthy appOk ⟨false, some 7⟩ =
      (Except.ok (), ⟨false, some 7⟩, []) :=
  (ensureRunning_at_most_one_spawn cfgDev osHealthy appOk
    ⟨false, some 7⟩ rfl).1 7 rfl

/-- C3: with a healthy lock and no tracked child, when the resolved
script path does not exist, the start request fails with the
script-missing error naming the resolved path, issues no spawn, and
leaves the state unchanged (still Stopped). -/
theorem ensureRunning_script_missing
    (cfg : BuildConfig) (os : OsModel) (app : AppHandle) (st : LocalApiState)
    (hp : st.poisoned = false) (hc : st.child = none)
    (hm : os.path_exists (local_api_paths cfg app).1 = false) :
    start_local_api cfg os app st =
      (Except.error ("Local API sidecar script missing at " ++
        (local_api_paths cfg app).1.render), st, []) := by
  simp [start_local_api, hp, hc, hm]

/-- C3 witness: on the OS with no script file, starting from Stopped
yields the script-missing error, no spawn, state unchanged. -/
theorem ensureRunning_script_missing_witness :
    start_local_api cfgDev osNoScript appOk ⟨false, none⟩ =
      (Except.error ("Local API sidecar script missing at " ++
        (local_api_paths cfgDev appOk).1.render), ⟨false, none⟩, []) :=
  ensureRunning_script_missing cfgDev osNoScript appOk ⟨false, none⟩ rfl rfl rfl

/-- C4: with a healthy lock, a stop request with a tracked child issues
exactly one kill request for that child and clears the handle, for
every OS — in particular whether or not the kill reports success — and
a stop request with no tracked child issues no kill and changes
nothing; the operation has no error channel at all. -/
theorem stop_semantics (os : OsModel) (st : LocalApiState)
    (hp : st.poisoned = false) :
    (∀ c, st.child = some c →
        stop_local_api os st = ({ st with child := none }, [c])) ∧
    (st.child = none → stop_local_api os st = (st, [])) := by
  constructor
  · intro c hc
    simp [stop_local_api, hp, hc]
  · intro hc
    simp [stop_local_api, hp, hc]

/-- C4 witness: on the OS whose kills report failure, stopping with
child 3 tracked still clears the handle and logs exactly one kill
request; stopping from Stopped does nothing. -/
theorem stop_semantics_witness :
    stop_local_api osKillFails ⟨false, some 3⟩ = (⟨false, none⟩, [3]) ∧
    stop_local_api osKillFails ⟨false, none⟩ = (⟨false, none⟩, []) :=
  ⟨(stop_semantics osKillFails ⟨false, some 3⟩ rfl).1 3 rfl,
   (stop_semantics osKillFails ⟨false, none⟩ rfl).2 rfl⟩

/-- C8: path resolution is a pure function of build mode and resource
directory: in a debug build the script is the sidecar source under the
manifest directory and the root is the manifest directory's parent
(with "." fallback); in a packaged build both come from the resource
directory; when the resource directory is undetermined, "." is used
instead of failing. -/
theorem local_api_paths_resolution (cfg : BuildConfig) (app : AppHandle) :
    (cfg.debug_assertions = true →
        local_api_paths cfg app =
          (cfg.cargo_manifest_dir.join "sidecar/local-api-server.mjs",
           match cfg.cargo_manifest_dir.parent with
           | some p => p
           | none => FsPath.mk ["."])) ∧
    (cfg.debug_assertions = false →
      ∀ rd, app.resource_dir = Except.ok rd →
        local_api_paths cfg app = (rd.join "sidecar/local-api-server.mjs", rd)) ∧
    (cfg.debug_assertions = false →
      ∀ e, app.resource_dir = Except.error e →
        local_api_paths cfg app =
          ((FsPath.mk ["."]).join "sidecar/local-api-server.mjs",
           FsPath.mk ["."])) := by
  refine ⟨fun hd => ?_, fun hd rd hrd => ?_, fun hd e he => ?_⟩
  · simp [local_api_paths, hd]
  · simp [local_api_paths, hd, hrd]
  · simp [local_api_paths, hd, he]

/-- C8 witness: in the debug build the script is under the manifest
directory and the root is its parent; in the packaged build with an
undetermined resource directory both fall back to ".". -/
theorem local_api_paths_resolution_witness :
    local_api_paths cfgDev appOk =
      (FsPath.mk ["repo", "src-tauri", "sidecar/local-api-server.mjs"],
       FsPath.mk ["repo"]) ∧
    local_api_paths cfgPack appNoRes =
      ((FsPath.mk ["."]).join "sidecar/local-api-server.mjs",
       FsPath.mk ["."]) :=
  ⟨(local_api_paths_resolution cfgDev appOk).1 rfl,
   (local_api_paths_resolution cfgPack appNoRes).2.2 rfl () rfl⟩

/-- C9: with a healthy lock, no tracked child, an existing script but a
failing OS spawn, the start request returns the spawn-failure error
wrapping the OS error and leaves the state unchanged (child still
None); a subsequent start request on the resulting state again issues
a spawn attempt rather than treating the sidecar as running. -/
theorem ensureRunning_spawn_failure_leaves_stopped
    (cfg : BuildConfig) (os : OsModel) (app : AppHandle) (st : LocalApiState)
    (e : String)
    (hp : st.poisoned = false) (hc : st.child = none)
    (hx : os.path_exists (local_api_paths cfg app).1 = true)
    (hs : os.spawn (sidecar_command (local_api_paths cfg app).1
            (local_api_paths cfg app).2) = Except.error e) :
    start_local_api cfg os app st =
      (Except.error ("Failed to launch local API: " ++ e), st,
       [sidecar_command (local_api_paths cfg app).1 (local_api_paths cfg app).2]) ∧
    (start_local_api cfg os app
        ((start_local_api cfg os app st).2.1)).2.2 =
      [sidecar_command (local_api_paths cfg app).1 (local_api_paths cfg app).2] := by
  have h1 : start_local_api cfg os app st =
      (Except.error ("Failed to launch local API: " ++ e), st,
       [sidecar_command (local_api_paths cfg app).1 (local_api_paths cfg app).2]) := by
    rw [start_local_api]
    simp only [hp, hc, hx]
    simp [hs]
  exact ⟨h1, by rw [h1, h1]⟩

/-- C9 witness: on the OS whose spawns fail, starting from Stopped
yields the spawn-failure error wrapping the OS message and leaves the
child handle empty. -/
theorem ensureRunning_spawn_failure_leaves_stopped_witness :
    start_local_api cfgDev osSpawnFails appOk ⟨false, none⟩ =
      (Except.error ("Failed to launch local API: " ++
        "no such file or directory"), ⟨false, none⟩,
       [sidecar_command (local_api_paths cfgDev appOk).1
          (local_api_paths cfgDev appOk).2]) :=
  (ensureRunning_spawn_failure_leaves_stopped cfgDev osSpawnFails appOk
    ⟨false, none⟩ "no such file or directory" rfl rfl rfl rfl).1

/-- C10: with a poisoned lock, the start request returns the
lock-failure error (a message matching none of the four spec error
kinds) without spawning or touching the state — for every build
configuration, so no path resolution is observable — and the stop
request returns silently with no kill issued and the handle left
intact. -/
theorem poisoned_lock_behavior
    (cfg : BuildConfig) (os : OsModel) (app : AppHandle) (st : LocalApiState)
    (hp : st.poisoned = true) :
    start_local_api cfg os app st =
      (Except.error "Failed to lock local API state", st, []) ∧
    stop_local_api os st = (st, []) := by
  constructor
  · simp [start_local_api, hp]
  · simp [stop_local_api, hp]

/-- C10 witness: with a poisoned lock and child 2 still tracked, start
fails with the lock error and stop leaves the handle in place. -/
theorem poisoned_lock_behavior_witness :
    start_local_api cfgDev osHealthy appOk ⟨true, some 2⟩ =
      (Except.error "Failed to lock local API state", ⟨true, some 2⟩, []) ∧
    stop_local_api osHealthy ⟨true, some 2⟩ = (⟨true, some 2⟩, []) :=
  poisoned_lock_behavior cfgDev osHealthy appOk ⟨true, some 2⟩ rfl

end WorldMonitor
